import Mathlib

/-
Verification of the larpix-control protocol codec core.

The definitions below are a shallow embedding of src/src/larpix.c together
with the constants of src/include/larpix.h.  C arrays are modelled as total
functions from Nat (an array of n bytes is represented by its contents at
every index; all code guards indices below the declared bound), machine
integers are modelled as Nat (values written into byte-typed locations are
reduced mod 256 where the C performs a narrowing store), and in-place
mutation becomes explicit state passing: a C function that mutates a buffer
and returns a status code becomes a Lean function returning the status
paired with the new buffer.  C for-loops become structural recursion on the
iteration count: loopF k is the state after the first k iterations.
-/

/-- LARPIX_BUFFER_SIZE from larpix.h. -/
def LARPIX_BUFFER_SIZE : Nat := 1024

/-- LARPIX_UART_SIZE from larpix.h. -/
def LARPIX_UART_SIZE : Nat := 54

/-- LARPIX_BITS_PER_BAUD from larpix.h. -/
def LARPIX_BITS_PER_BAUD : Nat := 4

/-- LARPIX_NUM_CHANNELS from larpix.h. -/
def LARPIX_NUM_CHANNELS : Nat := 32

/-- LARPIX_NUM_CONFIG_REGISTERS from larpix.h. -/
def LARPIX_NUM_CONFIG_REGISTERS : Nat := 63

/-- LARPIX_UART_CHIPID_LOW from larpix.h. -/
def LARPIX_UART_CHIPID_LOW : Nat := 2

/-- LARPIX_UART_CHIPID_HIGH from larpix.h. -/
def LARPIX_UART_CHIPID_HIGH : Nat := 9

/-- LARPIX_UART_PARITY from larpix.h. -/
def LARPIX_UART_PARITY : Nat := 53

/-- LARPIX_UART_REGISTER_ADDRESS_LOW from larpix.h. -/
def LARPIX_UART_REGISTER_ADDRESS_LOW : Nat := 10

/-- LARPIX_UART_REGISTER_ADDRESS_HIGH from larpix.h. -/
def LARPIX_UART_REGISTER_ADDRESS_HIGH : Nat := 17

/-- LARPIX_UART_REGISTER_DATA_LOW from larpix.h. -/
def LARPIX_UART_REGISTER_DATA_LOW : Nat := 18

/-- LARPIX_UART_REGISTER_DATA_HIGH from larpix.h. -/
def LARPIX_UART_REGISTER_DATA_HIGH : Nat := 25

/-- LARPIX_UART_TEST_BITS_11_0_LOW from larpix.h. -/
def LARPIX_UART_TEST_BITS_11_0_LOW : Nat := 41

/-- LARPIX_UART_TEST_BITS_11_0_HIGH from larpix.h. -/
def LARPIX_UART_TEST_BITS_11_0_HIGH : Nat := 52

/-- LARPIX_UART_TEST_BITS_15_12_LOW from larpix.h. -/
def LARPIX_UART_TEST_BITS_15_12_LOW : Nat := 10

/-- LARPIX_UART_TEST_BITS_15_12_HIGH from larpix.h. -/
def LARPIX_UART_TEST_BITS_15_12_HIGH : Nat := 13

/-- Pointwise update of a byte array modelled as a function: the state of
the array after the single C statement arr[i] = v. -/
def upd (f : Nat → Nat) (i v : Nat) : Nat → Nat :=
  fun k => if k = i then v else f k

/-- struct larpix_uart_packet: byte data[LARPIX_UART_SIZE].  The 54-byte
array is modelled as a total function; only indices below 54 are touched by
the code. -/
structure larpix_uart_packet where
  data : Nat → Nat

/-- struct larpix_data: byte bits[8][LARPIX_BUFFER_SIZE], as a function
channel → sample index → stored byte. -/
structure larpix_data where
  bits : Nat → Nat → Nat

/-- One bit of the little-endian encoding used by larpix_int_to_bitstream:
the value the loop body stores at position i, namely 0 when
(input AND (1 shifted left by i)) is zero and 1 otherwise. -/
def bitval (input i : Nat) : Nat :=
  if input &&& (1 <<< i) = 0 then 0 else 1

/-- larpix_int_to_bitstream (larpix.c lines 30-45).  The C function receives
a pointer into the middle of a packet, so the embedding takes the whole
array together with the base offset of that pointer; the result after len
loop iterations is the array with positions base..base+len-1 holding the
little-endian bits of input. -/
def larpix_int_to_bitstream (arr : Nat → Nat) (base input : Nat) : Nat → (Nat → Nat)
  | 0 => arr
  | len + 1 => upd (larpix_int_to_bitstream arr base input len) (base + len) (bitval input len)

/-- larpix_bitstream_to_int (larpix.c lines 14-28): result accumulated over
len loop iterations, adding 1 shifted left by i whenever the sample at
base + i is nonzero. -/
def larpix_bitstream_to_int (arr : Nat → Nat) (base : Nat) : Nat → Nat
  | 0 => 0
  | len + 1 =>
      larpix_bitstream_to_int arr base len +
        (if arr (base + len) = 0 then 0 else 1 <<< len)

/-- larpix_uart_set_chipid (larpix.c lines 376-383). -/
def larpix_uart_set_chipid (p : larpix_uart_packet) (chipid : Nat) : larpix_uart_packet :=
  ⟨larpix_int_to_bitstream p.data LARPIX_UART_CHIPID_LOW chipid
    (1 + LARPIX_UART_CHIPID_HIGH - LARPIX_UART_CHIPID_LOW)⟩

/-- larpix_uart_get_chipid (larpix.c lines 385-392). -/
def larpix_uart_get_chipid (p : larpix_uart_packet) : Nat :=
  larpix_bitstream_to_int p.data LARPIX_UART_CHIPID_LOW
    (1 + LARPIX_UART_CHIPID_HIGH - LARPIX_UART_CHIPID_LOW)

/-- larpix_uart_set_register (larpix.c lines 552-559). -/
def larpix_uart_set_register (p : larpix_uart_packet) (address : Nat) : larpix_uart_packet :=
  ⟨larpix_int_to_bitstream p.data LARPIX_UART_REGISTER_ADDRESS_LOW address
    (1 + LARPIX_UART_REGISTER_ADDRESS_HIGH - LARPIX_UART_REGISTER_ADDRESS_LOW)⟩

/-- larpix_uart_get_register (larpix.c lines 561-568). -/
def larpix_uart_get_register (p : larpix_uart_packet) : Nat :=
  larpix_bitstream_to_int p.data LARPIX_UART_REGISTER_ADDRESS_LOW
    (1 + LARPIX_UART_REGISTER_ADDRESS_HIGH - LARPIX_UART_REGISTER_ADDRESS_LOW)

/-- larpix_uart_set_register_data (larpix.c lines 570-577). -/
def larpix_uart_set_register_data (p : larpix_uart_packet) (value : Nat) : larpix_uart_packet :=
  ⟨larpix_int_to_bitstream p.data LARPIX_UART_REGISTER_DATA_LOW value
    (1 + LARPIX_UART_REGISTER_DATA_HIGH - LARPIX_UART_REGISTER_DATA_LOW)⟩

/-- larpix_uart_get_register_data (larpix.c lines 579-586). -/
def larpix_uart_get_register_data (p : larpix_uart_packet) : Nat :=
  larpix_bitstream_to_int p.data LARPIX_UART_REGISTER_DATA_LOW
    (1 + LARPIX_UART_REGISTER_DATA_HIGH - LARPIX_UART_REGISTER_DATA_LOW)

/-- larpix_uart_get_test_counter (larpix.c lines 537-550): low 12 bits from
offsets 41-52, high 4 bits from offsets 10-13, combined as
value + (value2 shifted left by 12). -/
def larpix_uart_get_test_counter (p : larpix_uart_packet) : Nat :=
  let length := 1 + LARPIX_UART_TEST_BITS_11_0_HIGH - LARPIX_UART_TEST_BITS_11_0_LOW
  let value := larpix_bitstream_to_int p.data LARPIX_UART_TEST_BITS_11_0_LOW length
  let length2 := 1 + LARPIX_UART_TEST_BITS_15_12_HIGH - LARPIX_UART_TEST_BITS_15_12_LOW
  let value2 := larpix_bitstream_to_int p.data LARPIX_UART_TEST_BITS_15_12_LOW length2
  value + (value2 <<< length)

/-- Loop of larpix_uart_compute_parity (larpix.c lines 394-406): number of
samples equal to 1 among the first n offsets. -/
def parityOnesCount (p : larpix_uart_packet) : Nat → Nat
  | 0 => 0
  | i + 1 => parityOnesCount p i + (if p.data i = 1 then 1 else 0)

/-- larpix_uart_compute_parity (larpix.c lines 394-406). -/
def larpix_uart_compute_parity (p : larpix_uart_packet) : Nat :=
  1 - (parityOnesCount p LARPIX_UART_PARITY) % 2

/-- larpix_uart_set_parity (larpix.c lines 408-413). -/
def larpix_uart_set_parity (p : larpix_uart_packet) : larpix_uart_packet :=
  ⟨upd p.data LARPIX_UART_PARITY (larpix_uart_compute_parity p)⟩

/-- larpix_uart_check_parity (larpix.c lines 433-445). -/
def larpix_uart_check_parity (p : larpix_uart_packet) : Nat :=
  if larpix_uart_compute_parity p = p.data LARPIX_UART_PARITY then 0 else 1

/-- First loop of larpix_uart_to_data (larpix.c lines 323-327): after j
iterations the channel holds 0 at startbit + k and 1 at
startbit + size - k - 1 for every k below j. -/
def startStopLoop (ch : Nat → Nat) (startbit size : Nat) : Nat → (Nat → Nat)
  | 0 => ch
  | j + 1 =>
      upd (upd (startStopLoop ch startbit size j) (startbit + j) 0)
        (startbit + size - j - 1) 1

/-- Inner loop of larpix_uart_to_data (larpix.c lines 331-335): writes the
value v of packet bit i to the oversampled positions
startbit + (i+1)*BPB + j for j below the iteration count. -/
def uartDataInner (ch : Nat → Nat) (startbit BPB i v : Nat) : Nat → (Nat → Nat)
  | 0 => ch
  | j + 1 => upd (uartDataInner ch startbit BPB i v j) (startbit + (i + 1) * BPB + j) v

/-- Outer loop of larpix_uart_to_data (larpix.c lines 329-336). -/
def uartDataLoop (p : larpix_uart_packet) (ch : Nat → Nat) (startbit BPB : Nat) :
    Nat → (Nat → Nat)
  | 0 => ch
  | i + 1 =>
      uartDataInner (uartDataLoop p ch startbit BPB i) startbit BPB i (p.data i) BPB

/-- larpix_uart_to_data (larpix.c lines 312-338), returning the status code
together with the updated buffer. -/
def larpix_uart_to_data (p : larpix_uart_packet) (d : larpix_data)
    (bit_position startbit : Nat) : Nat × larpix_data :=
  let size_in_buffer := (LARPIX_UART_SIZE + 2) * LARPIX_BITS_PER_BAUD
  if startbit + size_in_buffer > LARPIX_BUFFER_SIZE then (1, d)
  else
    let ch0 := d.bits bit_position
    let ch1 := startStopLoop ch0 startbit size_in_buffer LARPIX_BITS_PER_BAUD
    let ch2 := uartDataLoop p ch1 startbit LARPIX_BITS_PER_BAUD LARPIX_UART_SIZE
    (0, ⟨fun c => if c = bit_position then ch2 else d.bits c⟩)

/-- Loop of larpix_data_to_uart (larpix.c lines 349-353): packet byte i is
read from channel position startbit + i + 1. -/
def dataToUartLoop (ch : Nat → Nat) (startbit : Nat) (pd : Nat → Nat) : Nat → (Nat → Nat)
  | 0 => pd
  | i + 1 => upd (dataToUartLoop ch startbit pd i) i (ch (startbit + i + 1))

/-- larpix_data_to_uart (larpix.c lines 340-355), returning the status code
together with the updated packet. -/
def larpix_data_to_uart (p : larpix_uart_packet) (d : larpix_data)
    (bit_position startbit : Nat) : Nat × larpix_uart_packet :=
  if startbit + LARPIX_UART_SIZE + 2 > LARPIX_BUFFER_SIZE then (1, p)
  else (0, ⟨dataToUartLoop (d.bits bit_position) startbit p.data LARPIX_UART_SIZE⟩)

/-- Inner loop of larpix_data_to_array (larpix.c lines 229-236): the byte
value accumulated from the first m channels at sample index i. -/
def packByte (d : larpix_data) (i : Nat) : Nat → Nat
  | 0 => 0
  | bp + 1 => packByte d i bp + (if d.bits bp i ≠ 0 then 1 <<< bp else 0)

/-- larpix_data_to_array (larpix.c lines 220-239): the first
min nbytes 1024 bytes written into the output array. -/
def larpix_data_to_array (d : larpix_data) (nbytes : Nat) : List Nat :=
  (List.range (min nbytes LARPIX_BUFFER_SIZE)).map (fun i => packByte d i 8)

/-- Inner loop of larpix_array_to_data (larpix.c lines 249-261): unpack the
low m bits of array byte i into channels 0..m-1 at index i. -/
def arrayToDataInner (array : List Nat) (i : Nat) (bits : Nat → Nat → Nat) :
    Nat → (Nat → Nat → Nat)
  | 0 => bits
  | bp + 1 =>
      let b := arrayToDataInner array i bits bp
      fun c => if c = bp
        then upd (b c) i (if (1 <<< bp) &&& array.getD i 0 ≠ 0 then 1 else 0)
        else b c

/-- Outer loop of larpix_array_to_data (larpix.c lines 247-262). -/
def arrayToDataLoop (array : List Nat) (bits : Nat → Nat → Nat) : Nat → (Nat → Nat → Nat)
  | 0 => bits
  | i + 1 => arrayToDataInner array i (arrayToDataLoop array bits i) 8

/-- larpix_array_to_data (larpix.c lines 241-264). -/
def larpix_array_to_data (d : larpix_data) (array : List Nat) (nbytes : Nat) : larpix_data :=
  ⟨arrayToDataLoop array d.bits (min nbytes LARPIX_BUFFER_SIZE)⟩

/-- Modelled from the spec: the register address constants of
larpix_config_registers.h, a header included by larpix.c but not present in
the repository snapshot.  Section 3 and section 6 of the spec fix the map:
addresses 0-31 hold the per-channel pixel trim thresholds and addresses
32-62 hold the remaining fields in the order listed in section 3; the bit
patterns asserted by tests/ConfigTest.c agree with these values. -/
def LARPIX_REG_PIXEL_TRIM_THRESHOLD_LOW : Nat := 0

/-- Modelled from the spec: see LARPIX_REG_PIXEL_TRIM_THRESHOLD_LOW. -/
def LARPIX_REG_PIXEL_TRIM_THRESHOLD_HIGH : Nat := 31

/-- Modelled from the spec: see LARPIX_REG_PIXEL_TRIM_THRESHOLD_LOW. -/
def LARPIX_REG_GLOBAL_THRESHOLD : Nat := 32

/-- Modelled from the spec: see LARPIX_REG_PIXEL_TRIM_THRESHOLD_LOW. -/
def LARPIX_REG_CSA_GAIN_AND_BYPASSES : Nat := 33

/-- Modelled from the spec: see LARPIX_REG_PIXEL_TRIM_THRESHOLD_LOW. -/
def LARPIX_REG_CSA_BYPASS_SELECT_LOW : Nat := 34

/-- Modelled from the spec: see LARPIX_REG_PIXEL_TRIM_THRESHOLD_LOW. -/
def LARPIX_REG_CSA_BYPASS_SELECT_HIGH : Nat := 37

/-- Modelled from the spec: see LARPIX_REG_PIXEL_TRIM_THRESHOLD_LOW. -/
def LARPIX_REG_CSA_MONITOR_SELECT_LOW : Nat := 38

/-- Modelled from the spec: see LARPIX_REG_PIXEL_TRIM_THRESHOLD_LOW. -/
def LARPIX_REG_CSA_MONITOR_SELECT_HIGH : Nat := 41

/-- Modelled from the spec: see LARPIX_REG_PIXEL_TRIM_THRESHOLD_LOW. -/
def LARPIX_REG_CSA_TESTPULSE_ENABLE_LOW : Nat := 42

/-- Modelled from the spec: see LARPIX_REG_PIXEL_TRIM_THRESHOLD_LOW. -/
def LARPIX_REG_CSA_TESTPULSE_ENABLE_HIGH : Nat := 45

/-- Modelled from the spec: see LARPIX_REG_PIXEL_TRIM_THRESHOLD_LOW. -/
def LARPIX_REG_CSA_TESTPULSE_DAC_AMPLITUDE : Nat := 46

/-- Modelled from the spec: see LARPIX_REG_PIXEL_TRIM_THRESHOLD_LOW. -/
def LARPIX_REG_TEST_MODE_XTRIG_RESET_DIAG : Nat := 47

/-- Modelled from the spec: see LARPIX_REG_PIXEL_TRIM_THRESHOLD_LOW. -/
def LARPIX_REG_SAMPLE_CYCLES : Nat := 48

/-- Modelled from the spec: see LARPIX_REG_PIXEL_TRIM_THRESHOLD_LOW. -/
def LARPIX_REG_TEST_BURST_LENGTH_LOW : Nat := 49

/-- Modelled from the spec: see LARPIX_REG_PIXEL_TRIM_THRESHOLD_LOW. -/
def LARPIX_REG_TEST_BURST_LENGTH_HIGH : Nat := 50

/-- Modelled from the spec: see LARPIX_REG_PIXEL_TRIM_THRESHOLD_LOW. -/
def LARPIX_REG_ADC_BURST_LENGTH : Nat := 51

/-- Modelled from the spec: see LARPIX_REG_PIXEL_TRIM_THRESHOLD_LOW. -/
def LARPIX_REG_CHANNEL_MASK_LOW : Nat := 52

/-- Modelled from the spec: see LARPIX_REG_PIXEL_TRIM_THRESHOLD_LOW. -/
def LARPIX_REG_CHANNEL_MASK_HIGH : Nat := 55

/-- Modelled from the spec: see LARPIX_REG_PIXEL_TRIM_THRESHOLD_LOW. -/
def LARPIX_REG_EXTERNAL_TRIGGER_MASK_LOW : Nat := 56

/-- Modelled from the spec: see LARPIX_REG_PIXEL_TRIM_THRESHOLD_LOW. -/
def LARPIX_REG_EXTERNAL_TRIGGER_MASK_HIGH : Nat := 59

/-- Modelled from the spec: see LARPIX_REG_PIXEL_TRIM_THRESHOLD_LOW. -/
def LARPIX_REG_RESET_CYCLES_LOW : Nat := 60

/-- Modelled from the spec: see LARPIX_REG_PIXEL_TRIM_THRESHOLD_LOW. -/
def LARPIX_REG_RESET_CYCLES_HIGH : Nat := 62

/-- struct larpix_configuration (larpix.h lines 69-90).  The fixed-size
byte arrays are modelled as total functions from the channel or chunk
index. -/
structure larpix_configuration where
  pixel_trim_thresholds : Nat → Nat
  global_threshold : Nat
  csa_gain : Nat
  csa_bypass : Nat
  internal_bypass : Nat
  csa_bypass_select : Nat → Nat
  csa_monitor_select : Nat → Nat
  csa_testpulse_enable : Nat → Nat
  csa_testpulse_dac_amplitude : Nat
  test_mode : Nat
  cross_trigger_mode : Nat
  periodic_reset : Nat
  fifo_diagnostic : Nat
  sample_cycles : Nat
  test_burst_length : Nat → Nat
  adc_burst_length : Nat
  channel_mask : Nat → Nat
  external_trigger_mask : Nat → Nat
  reset_cycles : Nat → Nat

/-- larpix_config_init_defaults (larpix.c lines 588-628).  The C loops fill
the declared index ranges of each array; the modelling functions extend the
per-channel constants to all of Nat. -/
def larpix_config_init_defaults : larpix_configuration where
  pixel_trim_thresholds := fun _ => 0x10
  global_threshold := 0x10
  csa_gain := 0x1
  csa_bypass := 0x0
  internal_bypass := 0x1
  csa_bypass_select := fun _ => 0x0
  csa_monitor_select := fun _ => 0x1
  csa_testpulse_enable := fun _ => 0x0
  csa_testpulse_dac_amplitude := 0x0
  test_mode := 0x0
  cross_trigger_mode := 0x0
  periodic_reset := 0x0
  fifo_diagnostic := 0x0
  sample_cycles := 0x1
  test_burst_length := fun i => if i = 1 then 0xFF else 0x00
  adc_burst_length := 0
  channel_mask := fun _ => 0x0
  external_trigger_mask := fun _ => 0x1
  reset_cycles := fun i => if i = 1 then 0x10 else 0x00

/-- Loop shared by the chunked write accessors (for example larpix.c lines
838-843): OR together the low bit-shifted per-channel bytes of one chunk.
Each loop iteration stores back into a byte variable, hence the mod 256. -/
def chunkValueLoop (arr : Nat → Nat) (chunk : Nat) : Nat → Nat
  | 0 => 0
  | i + 1 => (chunkValueLoop arr chunk i ||| (arr (chunk * 8 + i) <<< i)) % 256

/-- Loop shared by the chunked read accessors (for example larpix.c lines
860-865): store bit i of the register byte into channel chunk*8+i. -/
def chunkWriteLoop (arr : Nat → Nat) (chunk value : Nat) : Nat → (Nat → Nat)
  | 0 => arr
  | i + 1 => upd (chunkWriteLoop arr chunk value i) (chunk * 8 + i) ((value >>> i) &&& 1)

/-- larpix_config_write_pixel_trim_threshold (larpix.c lines 750-758). -/
def larpix_config_write_pixel_trim_threshold (c : larpix_configuration)
    (p : larpix_uart_packet) (channelid : Nat) : larpix_uart_packet :=
  let value := c.pixel_trim_thresholds channelid
  let address := (LARPIX_REG_PIXEL_TRIM_THRESHOLD_LOW + channelid) % 256
  larpix_uart_set_register_data (larpix_uart_set_register p address) value

/-- larpix_config_read_pixel_trim_threshold (larpix.c lines 760-774). -/
def larpix_config_read_pixel_trim_threshold (c : larpix_configuration)
    (p : larpix_uart_packet) (channelid : Nat) : Nat × larpix_configuration :=
  let address := larpix_uart_get_register p
  if channelid ≠ address - LARPIX_REG_PIXEL_TRIM_THRESHOLD_LOW then (1, c)
  else
    let value := larpix_uart_get_register_data p
    (0, { c with pixel_trim_thresholds := upd c.pixel_trim_thresholds channelid value })

/-- larpix_config_write_global_threshold (larpix.c lines 776-784). -/
def larpix_config_write_global_threshold (c : larpix_configuration)
    (p : larpix_uart_packet) : larpix_uart_packet :=
  larpix_uart_set_register_data
    (larpix_uart_set_register p LARPIX_REG_GLOBAL_THRESHOLD) c.global_threshold

/-- larpix_config_read_global_threshold (larpix.c lines 786-800). -/
def larpix_config_read_global_threshold (c : larpix_configuration)
    (p : larpix_uart_packet) : Nat × larpix_configuration :=
  let address := larpix_uart_get_register p
  if address ≠ LARPIX_REG_GLOBAL_THRESHOLD then (1, c)
  else (0, { c with global_threshold := larpix_uart_get_register_data p })

/-- larpix_config_write_csa_gain_and_bypasses (larpix.c lines 802-813); the
two compound additions store into a byte variable, hence the mod 256. -/
def larpix_config_write_csa_gain_and_bypasses (c : larpix_configuration)
    (p : larpix_uart_packet) : larpix_uart_packet :=
  let value := ((c.csa_gain + c.csa_bypass * 2) % 256 + c.internal_bypass * 4) % 256
  larpix_uart_set_register_data
    (larpix_uart_set_register p LARPIX_REG_CSA_GAIN_AND_BYPASSES) value

/-- larpix_config_read_csa_gain_and_bypasses (larpix.c lines 815-831). -/
def larpix_config_read_csa_gain_and_bypasses (c : larpix_configuration)
    (p : larpix_uart_packet) : Nat × larpix_configuration :=
  let address := larpix_uart_get_register p
  if address ≠ LARPIX_REG_CSA_GAIN_AND_BYPASSES then (1, c)
  else
    let value := larpix_uart_get_register_data p
    (0, { c with
      csa_gain := value &&& 1
      csa_bypass := (value >>> 1) &&& 1
      internal_bypass := (value >>> 2) &&& 1 })

/-- larpix_config_write_csa_bypass_select (larpix.c lines 833-847). -/
def larpix_config_write_csa_bypass_select (c : larpix_configuration)
    (p : larpix_uart_packet) (channel_chunk : Nat) : larpix_uart_packet :=
  let value := chunkValueLoop c.csa_bypass_select channel_chunk 8
  let address := (LARPIX_REG_CSA_BYPASS_SELECT_LOW + channel_chunk) % 256
  larpix_uart_set_register_data (larpix_uart_set_register p address) value

/-- larpix_config_read_csa_bypass_select (larpix.c lines 849-868). -/
def larpix_config_read_csa_bypass_select (c : larpix_configuration)
    (p : larpix_uart_packet) : Nat × larpix_configuration :=
  let address := larpix_uart_get_register p
  if address < LARPIX_REG_CSA_BYPASS_SELECT_LOW ∨
      address > LARPIX_REG_CSA_BYPASS_SELECT_HIGH then (1, c)
  else
    let value := larpix_uart_get_register_data p
    (0, { c with csa_bypass_select :=
      chunkWriteLoop c.csa_bypass_select (address - LARPIX_REG_CSA_BYPASS_SELECT_LOW) value 8 })

/-- larpix_config_write_csa_monitor_select (larpix.c lines 870-884). -/
def larpix_config_write_csa_monitor_select (c : larpix_configuration)
    (p : larpix_uart_packet) (channel_chunk : Nat) : larpix_uart_packet :=
  let value := chunkValueLoop c.csa_monitor_select channel_chunk 8
  let address := (LARPIX_REG_CSA_MONITOR_SELECT_LOW + channel_chunk) % 256
  larpix_uart_set_register_data (larpix_uart_set_register p address) value

/-- larpix_config_read_csa_monitor_select (larpix.c lines 886-905). -/
def larpix_config_read_csa_monitor_select (c : larpix_configuration)
    (p : larpix_uart_packet) : Nat × larpix_configuration :=
  let address := larpix_uart_get_register p
  if address < LARPIX_REG_CSA_MONITOR_SELECT_LOW ∨
      address > LARPIX_REG_CSA_MONITOR_SELECT_HIGH then (1, c)
  else
    let value := larpix_uart_get_register_data p
    (0, { c with csa_monitor_select :=
      chunkWriteLoop c.csa_monitor_select (address - LARPIX_REG_CSA_MONITOR_SELECT_LOW) value 8 })

/-- larpix_config_write_csa_testpulse_enable (larpix.c lines 907-921). -/
def larpix_config_write_csa_testpulse_enable (c : larpix_configuration)
    (p : larpix_uart_packet) (channel_chunk : Nat) : larpix_uart_packet :=
  let value := chunkValueLoop c.csa_testpulse_enable channel_chunk 8
  let address := (LARPIX_REG_CSA_TESTPULSE_ENABLE_LOW + channel_chunk) % 256
  larpix_uart_set_register_data (larpix_uart_set_register p address) value

/-- larpix_config_read_csa_testpulse_enable (larpix.c lines 923-942). -/
def larpix_config_read_csa_testpulse_enable (c : larpix_configuration)
    (p : larpix_uart_packet) : Nat × larpix_configuration :=
  let address := larpix_uart_get_register p
  if address < LARPIX_REG_CSA_TESTPULSE_ENABLE_LOW ∨
      address > LARPIX_REG_CSA_TESTPULSE_ENABLE_HIGH then (1, c)
  else
    let value := larpix_uart_get_register_data p
    let arr := chunkWriteLoop c.csa_testpulse_enable
      (address - LARPIX_REG_CSA_TESTPULSE_ENABLE_LOW) value 8
    (0, { c with csa_testpulse_enable := arr })

/-- larpix_config_write_csa_testpulse_dac_amplitude (larpix.c lines 944-952). -/
def larpix_config_write_csa_testpulse_dac_amplitude (c : larpix_configuration)
    (p : larpix_uart_packet) : larpix_uart_packet :=
  larpix_uart_set_register_data
    (larpix_uart_set_register p LARPIX_REG_CSA_TESTPULSE_DAC_AMPLITUDE)
    c.csa_testpulse_dac_amplitude

/-- larpix_config_read_csa_testpulse_dac_amplitude (larpix.c lines 954-969). -/
def larpix_config_read_csa_testpulse_dac_amplitude (c : larpix_configuration)
    (p : larpix_uart_packet) : Nat × larpix_configuration :=
  let address := larpix_uart_get_register p
  if address ≠ LARPIX_REG_CSA_TESTPULSE_DAC_AMPLITUDE then (1, c)
  else (0, { c with csa_testpulse_dac_amplitude := larpix_uart_get_register_data p })

/-- larpix_config_write_test_mode_xtrig_reset_diag (larpix.c lines 971-982);
each OR-assignment stores into a byte variable, hence the mod 256. -/
def larpix_config_write_test_mode_xtrig_reset_diag (c : larpix_configuration)
    (p : larpix_uart_packet) : larpix_uart_packet :=
  let v1 := (0 ||| c.test_mode) % 256
  let v2 := (v1 ||| (c.cross_trigger_mode <<< 2)) % 256
  let v3 := (v2 ||| (c.periodic_reset <<< 3)) % 256
  let v4 := (v3 ||| (c.fifo_diagnostic <<< 4)) % 256
  larpix_uart_set_register_data
    (larpix_uart_set_register p LARPIX_REG_TEST_MODE_XTRIG_RESET_DIAG) v4

/-- larpix_config_read_test_mode_xtrig_reset_diag (larpix.c lines 984-1001). -/
def larpix_config_read_test_mode_xtrig_reset_diag (c : larpix_configuration)
    (p : larpix_uart_packet) : Nat × larpix_configuration :=
  let address := larpix_uart_get_register p
  if address ≠ LARPIX_REG_TEST_MODE_XTRIG_RESET_DIAG then (1, c)
  else
    let value := larpix_uart_get_register_data p
    (0, { c with
      test_mode := value &&& 3
      cross_trigger_mode := (value >>> 2) &&& 1
      periodic_reset := (value >>> 3) &&& 1
      fifo_diagnostic := (value >>> 4) &&& 1 })

/-- larpix_config_write_sample_cycles (larpix.c lines 1003-1010). -/
def larpix_config_write_sample_cycles (c : larpix_configuration)
    (p : larpix_uart_packet) : larpix_uart_packet :=
  larpix_uart_set_register_data
    (larpix_uart_set_register p LARPIX_REG_SAMPLE_CYCLES) c.sample_cycles

/-- larpix_config_read_sample_cycles (larpix.c lines 1012-1026). -/
def larpix_config_read_sample_cycles (c : larpix_configuration)
    (p : larpix_uart_packet) : Nat × larpix_configuration :=
  let address := larpix_uart_get_register p
  if address ≠ LARPIX_REG_SAMPLE_CYCLES then (1, c)
  else (0, { c with sample_cycles := larpix_uart_get_register_data p })

/-- larpix_config_write_test_burst_length (larpix.c lines 1028-1035). -/
def larpix_config_write_test_burst_length (c : larpix_configuration)
    (p : larpix_uart_packet) (value_chunk : Nat) : larpix_uart_packet :=
  let value := c.test_burst_length value_chunk
  let address := (LARPIX_REG_TEST_BURST_LENGTH_LOW + value_chunk) % 256
  larpix_uart_set_register_data (larpix_uart_set_register p address) value

/-- larpix_config_read_test_burst_length (larpix.c lines 1037-1052). -/
def larpix_config_read_test_burst_length (c : larpix_configuration)
    (p : larpix_uart_packet) : Nat × larpix_configuration :=
  let address := larpix_uart_get_register p
  if address < LARPIX_REG_TEST_BURST_LENGTH_LOW ∨
      address > LARPIX_REG_TEST_BURST_LENGTH_HIGH then (1, c)
  else
    let value := larpix_uart_get_register_data p
    let value_chunk := address - LARPIX_REG_TEST_BURST_LENGTH_LOW
    (0, { c with test_burst_length := upd c.test_burst_length value_chunk value })

/-- larpix_config_write_adc_burst_length (larpix.c lines 1054-1061). -/
def larpix_config_write_adc_burst_length (c : larpix_configuration)
    (p : larpix_uart_packet) : larpix_uart_packet :=
  larpix_uart_set_register_data
    (larpix_uart_set_register p LARPIX_REG_ADC_BURST_LENGTH) c.adc_burst_length

/-- larpix_config_read_adc_burst_length (larpix.c lines 1063-1077). -/
def larpix_config_read_adc_burst_length (c : larpix_configuration)
    (p : larpix_uart_packet) : Nat × larpix_configuration :=
  let address := larpix_uart_get_register p
  if address ≠ LARPIX_REG_ADC_BURST_LENGTH then (1, c)
  else (0, { c with adc_burst_length := larpix_uart_get_register_data p })

/-- larpix_config_write_channel_mask (larpix.c lines 1079-1093). -/
def larpix_config_write_channel_mask (c : larpix_configuration)
    (p : larpix_uart_packet) (channel_chunk : Nat) : larpix_uart_packet :=
  let value := chunkValueLoop c.channel_mask channel_chunk 8
  let address := (LARPIX_REG_CHANNEL_MASK_LOW + channel_chunk) % 256
  larpix_uart_set_register_data (larpix_uart_set_register p address) value

/-- larpix_config_read_channel_mask (larpix.c lines 1095-1114). -/
def larpix_config_read_channel_mask (c : larpix_configuration)
    (p : larpix_uart_packet) : Nat × larpix_configuration :=
  let address := larpix_uart_get_register p
  if address < LARPIX_REG_CHANNEL_MASK_LOW ∨
      address > LARPIX_REG_CHANNEL_MASK_HIGH then (1, c)
  else
    let value := larpix_uart_get_register_data p
    (0, { c with channel_mask :=
      chunkWriteLoop c.channel_mask (address - LARPIX_REG_CHANNEL_MASK_LOW) value 8 })

/-- larpix_config_write_external_trigger_mask (larpix.c lines 1116-1130). -/
def larpix_config_write_external_trigger_mask (c : larpix_configuration)
    (p : larpix_uart_packet) (channel_chunk : Nat) : larpix_uart_packet :=
  let value := chunkValueLoop c.external_trigger_mask channel_chunk 8
  let address := (LARPIX_REG_EXTERNAL_TRIGGER_MASK_LOW + channel_chunk) % 256
  larpix_uart_set_register_data (larpix_uart_set_register p address) value

/-- larpix_config_read_external_trigger_mask (larpix.c lines 1132-1151). -/
def larpix_config_read_external_trigger_mask (c : larpix_configuration)
    (p : larpix_uart_packet) : Nat × larpix_configuration :=
  let address := larpix_uart_get_register p
  if address < LARPIX_REG_EXTERNAL_TRIGGER_MASK_LOW ∨
      address > LARPIX_REG_EXTERNAL_TRIGGER_MASK_HIGH then (1, c)
  else
    let value := larpix_uart_get_register_data p
    let arr := chunkWriteLoop c.external_trigger_mask
      (address - LARPIX_REG_EXTERNAL_TRIGGER_MASK_LOW) value 8
    (0, { c with external_trigger_mask := arr })

/-- larpix_config_write_reset_cycles (larpix.c lines 1153-1160). -/
def larpix_config_write_reset_cycles (c : larpix_configuration)
    (p : larpix_uart_packet) (value_chunk : Nat) : larpix_uart_packet :=
  let value := c.reset_cycles value_chunk
  let address := (LARPIX_REG_RESET_CYCLES_LOW + value_chunk) % 256
  larpix_uart_set_register_data (larpix_uart_set_register p address) value

/-- larpix_config_read_reset_cycles (larpix.c lines 1162-1177).  Line 1174
of the source stores the decoded byte into test_burst_length, not into
reset_cycles; the embedding reproduces that store verbatim. -/
def larpix_config_read_reset_cycles (c : larpix_configuration)
    (p : larpix_uart_packet) : Nat × larpix_configuration :=
  let address := larpix_uart_get_register p
  if address < LARPIX_REG_RESET_CYCLES_LOW ∨
      address > LARPIX_REG_RESET_CYCLES_HIGH then (1, c)
  else
    let value := larpix_uart_get_register_data p
    let value_chunk := address - LARPIX_REG_RESET_CYCLES_LOW
    (0, { c with test_burst_length := upd c.test_burst_length value_chunk value })

/-- Packet used when a position beyond the end of a modelled packet list is
read; the C arrays always have exactly 63 entries. -/
def blankPacket : larpix_uart_packet := ⟨fun _ => 0⟩

/-- Straight-line body of larpix_config_write_all (larpix.c lines 630-688)
flattened by packet position: the C function walks a pointer through the
63-packet array, and the packet at position k receives the k-th write call
of the fixed sequence (pixel trim 0-31, global threshold, gain/bypasses,
4 bypass-select chunks, 4 monitor-select chunks, 4 testpulse-enable chunks,
dac amplitude, test mode, sample cycles, 2 test-burst chunks, adc burst,
4 channel-mask chunks, 4 external-trigger chunks, 3 reset-cycles chunks). -/
def writeReg (c : larpix_configuration) (k : Nat) (p : larpix_uart_packet) :
    larpix_uart_packet :=
  if k < 32 then larpix_config_write_pixel_trim_threshold c p k
  else if k = 32 then larpix_config_write_global_threshold c p
  else if k = 33 then larpix_config_write_csa_gain_and_bypasses c p
  else if k < 38 then larpix_config_write_csa_bypass_select c p (k - 34)
  else if k < 42 then larpix_config_write_csa_monitor_select c p (k - 38)
  else if k < 46 then larpix_config_write_csa_testpulse_enable c p (k - 42)
  else if k = 46 then larpix_config_write_csa_testpulse_dac_amplitude c p
  else if k = 47 then larpix_config_write_test_mode_xtrig_reset_diag c p
  else if k = 48 then larpix_config_write_sample_cycles c p
  else if k < 51 then larpix_config_write_test_burst_length c p (k - 49)
  else if k = 51 then larpix_config_write_adc_burst_length c p
  else if k < 56 then larpix_config_write_channel_mask c p (k - 52)
  else if k < 60 then larpix_config_write_external_trigger_mask c p (k - 56)
  else larpix_config_write_reset_cycles c p (k - 60)

/-- larpix_config_write_all (larpix.c lines 630-688) on a 63-packet array. -/
def larpix_config_write_all (c : larpix_configuration)
    (packets : List larpix_uart_packet) : List larpix_uart_packet :=
  (List.range LARPIX_NUM_CONFIG_REGISTERS).map
    (fun k => writeReg c k (packets.getD k blankPacket))

/-- Straight-line body of larpix_config_read_all (larpix.c lines 689-748)
flattened by packet position, in the same fixed order as writeReg. -/
def readReg (k : Nat) (p : larpix_uart_packet) (c : larpix_configuration) :
    Nat × larpix_configuration :=
  if k < 32 then larpix_config_read_pixel_trim_threshold c p k
  else if k = 32 then larpix_config_read_global_threshold c p
  else if k = 33 then larpix_config_read_csa_gain_and_bypasses c p
  else if k < 38 then larpix_config_read_csa_bypass_select c p
  else if k < 42 then larpix_config_read_csa_monitor_select c p
  else if k < 46 then larpix_config_read_csa_testpulse_enable c p
  else if k = 46 then larpix_config_read_csa_testpulse_dac_amplitude c p
  else if k = 47 then larpix_config_read_test_mode_xtrig_reset_diag c p
  else if k = 48 then larpix_config_read_sample_cycles c p
  else if k < 51 then larpix_config_read_test_burst_length c p
  else if k = 51 then larpix_config_read_adc_burst_length c p
  else if k < 56 then larpix_config_read_channel_mask c p
  else if k < 60 then larpix_config_read_external_trigger_mask c p
  else larpix_config_read_reset_cycles c p

/-- larpix_config_read_all (larpix.c lines 689-748): statuses of the 63
reads are summed and the configuration is threaded through in order. -/
def larpix_config_read_all (c : larpix_configuration)
    (packets : List larpix_uart_packet) : Nat × larpix_configuration :=
  (List.range LARPIX_NUM_CONFIG_REGISTERS).foldl
    (fun acc k =>
      let r := readReg k (packets.getD k blankPacket) acc.2
      (acc.1 + r.1, r.2))
    (0, c)

/-- Value written by larpix_int_to_bitstream at each position: bit i of the
input as the arithmetic expression input / 2 ^ i % 2. -/
theorem bitval_eq_div_mod (input n : Nat) : bitval input n = input / 2 ^ n % 2 := by
  unfold bitval
  rw [Nat.one_shiftLeft, Nat.and_two_pow, Nat.testBit_to_div_mod]
  have h2 : input / 2 ^ n % 2 = 0 ∨ input / 2 ^ n % 2 = 1 := by omega
  have hpos : (2 : Nat) ^ n ≠ 0 := by positivity
  rcases h2 with h2 | h2 <;> simp [h2, hpos]

/-- Pointwise description of larpix_int_to_bitstream: positions inside the
written window hold the little-endian bits of the input, everything else is
untouched. -/
theorem larpix_int_to_bitstream_apply (arr : Nat → Nat) (base input len k : Nat) :
    larpix_int_to_bitstream arr base input len k =
      if base ≤ k ∧ k < base + len then bitval input (k - base) else arr k := by
  induction len with
  | zero =>
      simp only [larpix_int_to_bitstream]
      rw [if_neg]
      omega
  | succ n ih =>
      simp only [larpix_int_to_bitstream, upd]
      by_cases hk : k = base + n
      · subst hk
        rw [if_pos rfl, if_pos (by omega), Nat.add_sub_cancel_left]
      · rw [if_neg hk, ih]
        have hiff : (base ≤ k ∧ k < base + n) ↔ (base ≤ k ∧ k < base + (n + 1)) := by omega
        simp only [hiff]

/-- larpix_bitstream_to_int only reads the samples inside its window. -/
theorem larpix_bitstream_to_int_congr (arr1 arr2 : Nat → Nat) (base len : Nat)
    (h : ∀ i, i < len → arr1 (base + i) = arr2 (base + i)) :
    larpix_bitstream_to_int arr1 base len = larpix_bitstream_to_int arr2 base len := by
  induction len with
  | zero => rfl
  | succ n ih =>
      simp only [larpix_bitstream_to_int]
      rw [ih (fun i hi => h i (by omega)), h n (by omega)]

/-- Decoding a window holding the little-endian bits of some input yields
that input reduced modulo 2 ^ len. -/
theorem larpix_bitstream_to_int_of_bits (arr : Nat → Nat) (base input len : Nat)
    (h : ∀ i, i < len → arr (base + i) = bitval input i) :
    larpix_bitstream_to_int arr base len = input % 2 ^ len := by
  induction len with
  | zero => simp [larpix_bitstream_to_int, Nat.mod_one]
  | succ n ih =>
      simp only [larpix_bitstream_to_int]
      rw [ih (fun i hi => h i (by omega)), h n (by omega)]
      have hsplit : input % 2 ^ (n + 1) = input % 2 ^ n + 2 ^ n * (input / 2 ^ n % 2) := by
        rw [pow_succ]
        exact Nat.mod_mul
      rw [hsplit, bitval_eq_div_mod, Nat.one_shiftLeft]
      have h2 : input / 2 ^ n % 2 = 0 ∨ input / 2 ^ n % 2 = 1 := by omega
      rcases h2 with h2 | h2 <;> simp [h2]

/-- larpix_bitstream_to_int over len samples is below 2 ^ len. -/
theorem larpix_bitstream_to_int_lt (arr : Nat → Nat) (base len : Nat) :
    larpix_bitstream_to_int arr base len < 2 ^ len := by
  induction len with
  | zero => simp [larpix_bitstream_to_int]
  | succ n ih =>
      simp only [larpix_bitstream_to_int]
      have hle : (if arr (base + n) = 0 then 0 else 1 <<< n) ≤ 2 ^ n := by
        rw [Nat.one_shiftLeft]
        split <;> omega
      have hpow : 2 ^ (n + 1) = 2 ^ n * 2 := pow_succ 2 n
      omega

/-- Encode-then-decode round trip of the generic bit codec over the same
window. -/
theorem bitstream_roundtrip (arr : Nat → Nat) (base input len : Nat) :
    larpix_bitstream_to_int (larpix_int_to_bitstream arr base input len) base len =
      input % 2 ^ len := by
  apply larpix_bitstream_to_int_of_bits
  intro i hi
  rw [larpix_int_to_bitstream_apply, if_pos (by omega), Nat.add_sub_cancel_left]

/-- Decoding a window disjoint from the encoded window sees the original
array. -/
theorem bitstream_disjoint (arr : Nat → Nat) (base input len base2 len2 : Nat)
    (h : base2 + len2 ≤ base ∨ base + len ≤ base2) :
    larpix_bitstream_to_int (larpix_int_to_bitstream arr base input len) base2 len2 =
      larpix_bitstream_to_int arr base2 len2 := by
  apply larpix_bitstream_to_int_congr
  intro i hi
  rw [larpix_int_to_bitstream_apply, if_neg (by omega)]

/-- Reading the register address field is insensitive to a preceding write
of the register data field (disjoint bit windows 10-17 and 18-25). -/
theorem get_register_after_set_register_data (p : larpix_uart_packet) (v : Nat) :
    larpix_uart_get_register (larpix_uart_set_register_data p v) =
      larpix_uart_get_register p := by
  simp only [larpix_uart_get_register, larpix_uart_set_register_data,
    LARPIX_UART_REGISTER_ADDRESS_LOW, LARPIX_UART_REGISTER_ADDRESS_HIGH,
    LARPIX_UART_REGISTER_DATA_LOW, LARPIX_UART_REGISTER_DATA_HIGH]
  exact bitstream_disjoint p.data 18 v 8 10 8 (by omega)

/-- Register address round trip through one packet. -/
theorem get_register_after_set_register (p : larpix_uart_packet) (a : Nat) :
    larpix_uart_get_register (larpix_uart_set_register p a) = a % 256 := by
  simp only [larpix_uart_get_register, larpix_uart_set_register,
    LARPIX_UART_REGISTER_ADDRESS_LOW, LARPIX_UART_REGISTER_ADDRESS_HIGH]
  exact bitstream_roundtrip p.data 10 a 8

/-- Register data round trip through one packet. -/
theorem get_register_data_after_set_register_data (p : larpix_uart_packet) (v : Nat) :
    larpix_uart_get_register_data (larpix_uart_set_register_data p v) = v % 256 := by
  simp only [larpix_uart_get_register_data, larpix_uart_set_register_data,
    LARPIX_UART_REGISTER_DATA_LOW, LARPIX_UART_REGISTER_DATA_HIGH]
  exact bitstream_roundtrip p.data 18 v 8

/-- All-samples-zero buffer, used as a concrete instance. -/
def blankData : larpix_data := ⟨fun _ _ => 0⟩

/-- Test packet with exactly samples 50 and 10 set to 1 (the literal
example of the spec for the test counter). -/
def testCounterPacket : larpix_uart_packet := ⟨fun k => if k = 50 ∨ k = 10 then 1 else 0⟩

/-- C6: for every packet p and chip id value, reading the chip id back
after larpix_uart_set_chipid yields the id truncated to 8 bits, and setting
chip id 120 stores the LSB-first samples 0,0,0,1,1,1,1,0 at offsets 2-9. -/
theorem larpix_c6_chipid_roundtrip (p : larpix_uart_packet) (chipid : Nat) :
    larpix_uart_get_chipid (larpix_uart_set_chipid p chipid) = chipid &&& 0xFF
    ∧ ((larpix_uart_set_chipid p 120).data 2 = 0
      ∧ (larpix_uart_set_chipid p 120).data 3 = 0
      ∧ (larpix_uart_set_chipid p 120).data 4 = 0
      ∧ (larpix_uart_set_chipid p 120).data 5 = 1
      ∧ (larpix_uart_set_chipid p 120).data 6 = 1
      ∧ (larpix_uart_set_chipid p 120).data 7 = 1
      ∧ (larpix_uart_set_chipid p 120).data 8 = 1
      ∧ (larpix_uart_set_chipid p 120).data 9 = 0) := by
  constructor
  · have h : larpix_uart_get_chipid (larpix_uart_set_chipid p chipid) = chipid % 256 := by
      simp only [larpix_uart_get_chipid, larpix_uart_set_chipid,
        LARPIX_UART_CHIPID_LOW, LARPIX_UART_CHIPID_HIGH]
      exact bitstream_roundtrip p.data 2 chipid 8
    rw [h, show (0xFF : Nat) = 2 ^ 8 - 1 from rfl, Nat.and_pow_two_sub_one_eq_mod]
  · refine ⟨?_, ?_, ?_, ?_, ?_, ?_, ?_, ?_⟩ <;>
      · simp only [larpix_uart_set_chipid, LARPIX_UART_CHIPID_LOW, LARPIX_UART_CHIPID_HIGH]
        rw [larpix_int_to_bitstream_apply, if_pos (by omega)]
        decide

/-- C8: larpix_uart_get_test_counter returns low OR (high shifted left by
12), where low is the 12-bit little-endian field at offsets 41-52 and high
the 4-bit field at offsets 10-13; on the packet with exactly samples 50 and
10 set the counter is 4608. -/
theorem larpix_c8_test_counter (p : larpix_uart_packet) :
    larpix_uart_get_test_counter p =
      (larpix_bitstream_to_int p.data 41 12) |||
        ((larpix_bitstream_to_int p.data 10 4) <<< 12)
    ∧ larpix_uart_get_test_counter testCounterPacket = 4608 := by
  constructor
  · unfold larpix_uart_get_test_counter
    simp only [LARPIX_UART_TEST_BITS_11_0_LOW, LARPIX_UART_TEST_BITS_11_0_HIGH,
      LARPIX_UART_TEST_BITS_15_12_LOW, LARPIX_UART_TEST_BITS_15_12_HIGH]
    norm_num
    have hlow : larpix_bitstream_to_int p.data 41 12 < 2 ^ 12 :=
      larpix_bitstream_to_int_lt p.data 41 12
    calc larpix_bitstream_to_int p.data 41 12 + larpix_bitstream_to_int p.data 10 4 <<< 12
        = 2 ^ 12 * larpix_bitstream_to_int p.data 10 4 +
            larpix_bitstream_to_int p.data 41 12 := by
          rw [Nat.shiftLeft_eq]
          ring
      _ = 2 ^ 12 * larpix_bitstream_to_int p.data 10 4 |||
            larpix_bitstream_to_int p.data 41 12 :=
          Nat.mul_add_lt_is_or hlow _
      _ = larpix_bitstream_to_int p.data 41 12 |||
            2 ^ 12 * larpix_bitstream_to_int p.data 10 4 := Nat.or_comm _ _
      _ = larpix_bitstream_to_int p.data 41 12 |||
            larpix_bitstream_to_int p.data 10 4 <<< 12 := by
          rw [Nat.shiftLeft_eq, Nat.mul_comm]
  · decide

/-- C3: larpix_uart_to_data fails (returns a nonzero status) exactly when
the start offset plus the framing footprint (54 + 2) * bits_per_baud
exceeds the 1024-sample capacity, and in the failure case the buffer is
returned completely unchanged. -/
theorem larpix_c3_uart_to_data_error (p : larpix_uart_packet) (d : larpix_data)
    (bit_position startbit : Nat) :
    ((larpix_uart_to_data p d bit_position startbit).1 ≠ 0 ↔
      startbit + (LARPIX_UART_SIZE + 2) * LARPIX_BITS_PER_BAUD > LARPIX_BUFFER_SIZE)
    ∧ (startbit + (LARPIX_UART_SIZE + 2) * LARPIX_BITS_PER_BAUD > LARPIX_BUFFER_SIZE →
        (larpix_uart_to_data p d bit_position startbit).2 = d) := by
  unfold larpix_uart_to_data
  by_cases h :
      startbit + (LARPIX_UART_SIZE + 2) * LARPIX_BITS_PER_BAUD > LARPIX_BUFFER_SIZE
  · simp [h]
  · simp [h]

/-- Witness for larpix_c3_uart_to_data_error at the concrete offset 1000:
the call fails and leaves the all-zero buffer untouched. -/
theorem larpix_c3_witness :
    (larpix_uart_to_data blankPacket blankData 0 1000).1 ≠ 0
    ∧ (larpix_uart_to_data blankPacket blankData 0 1000).2 = blankData := by
  have h := larpix_c3_uart_to_data_error blankPacket blankData 0 1000
  exact ⟨h.1.mpr (by decide), h.2 (by decide)⟩

/-- parityOnesCount only reads the samples below its bound. -/
theorem parityOnesCount_congr (p q : larpix_uart_packet) (n : Nat)
    (h : ∀ i, i < n → p.data i = q.data i) :
    parityOnesCount p n = parityOnesCount q n := by
  induction n with
  | zero => rfl
  | succ m ih =>
      simp only [parityOnesCount]
      rw [ih (fun i hi => h i (by omega)), h m (by omega)]

/-- Overwriting one sample below the bound changes the ones count by the
difference between the counted contributions of the old and new values. -/
theorem parityOnesCount_upd (p : larpix_uart_packet) (k v n : Nat) (hk : k < n) :
    parityOnesCount ⟨upd p.data k v⟩ n + (if p.data k = 1 then 1 else 0) =
      parityOnesCount p n + (if v = 1 then 1 else 0) := by
  induction n with
  | zero => omega
  | succ m ih =>
      by_cases hkm : k = m
      · subst hkm
        have h1 : parityOnesCount ⟨upd p.data k v⟩ k = parityOnesCount p k := by
          apply parityOnesCount_congr
          intro i hi
          simp only [upd]
          rw [if_neg (by omega)]
        have hvk : upd p.data k v k = v := by
          simp [upd]
        simp only [parityOnesCount, h1, hvk]
        omega
      · have hkm2 : k < m := by omega
        have hdm : (upd p.data k v) m = p.data m := by
          simp only [upd]
          rw [if_neg (by omega)]
        simp only [parityOnesCount, hdm]
        have := ih hkm2
        omega

/-- Sample at an offset below the parity slot is untouched by set_parity. -/
theorem set_parity_data_of_lt (p : larpix_uart_packet) (i : Nat) (hi : i < 53) :
    (larpix_uart_set_parity p).data i = p.data i := by
  simp only [larpix_uart_set_parity, upd, LARPIX_UART_PARITY]
  rw [if_neg (by omega)]

/-- Freshly set parity always verifies. -/
theorem check_parity_after_set_parity (p : larpix_uart_packet) :
    larpix_uart_check_parity (larpix_uart_set_parity p) = 0 := by
  have hc : parityOnesCount (larpix_uart_set_parity p) LARPIX_UART_PARITY =
      parityOnesCount p LARPIX_UART_PARITY := by
    apply parityOnesCount_congr
    intro i hi
    simp only [LARPIX_UART_PARITY] at hi
    exact set_parity_data_of_lt p i hi
  have hstored : (larpix_uart_set_parity p).data LARPIX_UART_PARITY =
      larpix_uart_compute_parity p := by
    simp [larpix_uart_set_parity, upd]
  have h1 : larpix_uart_compute_parity (larpix_uart_set_parity p) =
      larpix_uart_compute_parity p := by
    unfold larpix_uart_compute_parity
    rw [hc]
  unfold larpix_uart_check_parity
  rw [h1, hstored, if_pos rfl]

/-- Flip of a single sample: the packet with sample k replaced by
1 - sample k (spec-side notion used by the parity robustness claim). -/
def flipSample (p : larpix_uart_packet) (k : Nat) : larpix_uart_packet :=
  ⟨upd p.data k (1 - p.data k)⟩

/-- Flipping one binary sample below the parity slot of a packet whose
parity verifies makes the parity check fail. -/
theorem check_parity_flip (q : larpix_uart_packet) (k : Nat) (hk : k < 53)
    (hqk : q.data k = 0 ∨ q.data k = 1)
    (hgood : larpix_uart_check_parity q = 0) :
    larpix_uart_check_parity (flipSample q k) ≠ 0 := by
  have hstored : (flipSample q k).data 53 = q.data 53 := by
    simp only [flipSample, upd]
    rw [if_neg (by omega)]
  have hgoodeq : larpix_uart_compute_parity q = q.data 53 := by
    unfold larpix_uart_check_parity at hgood
    simp only [LARPIX_UART_PARITY] at hgood
    by_contra hne
    rw [if_neg hne] at hgood
    omega
  have hflipdef : flipSample q k = ⟨upd q.data k (1 - q.data k)⟩ := rfl
  have hflip := parityOnesCount_upd q k (1 - q.data k) 53 hk
  unfold larpix_uart_check_parity
  have hne : larpix_uart_compute_parity (flipSample q k) ≠
      (flipSample q k).data LARPIX_UART_PARITY := by
    simp only [LARPIX_UART_PARITY]
    rw [hstored, ← hgoodeq]
    unfold larpix_uart_compute_parity
    simp only [LARPIX_UART_PARITY]
    rw [hflipdef]
    rcases hqk with h | h
    · rw [h] at hflip ⊢
      norm_num at hflip ⊢
      omega
    · rw [h] at hflip ⊢
      norm_num at hflip ⊢
      omega
  rw [if_neg hne]
  omega

/-- C7: for a packet with binary samples, freshly set parity verifies,
flipping any single sample at offsets 0-52 of the parity-set packet makes
the check fail, and the computed parity of the all-zero packet is 1. -/
theorem larpix_c7_parity (p : larpix_uart_packet)
    (hp : ∀ i, p.data i = 0 ∨ p.data i = 1) :
    larpix_uart_check_parity (larpix_uart_set_parity p) = 0
    ∧ (∀ k, k < 53 →
        larpix_uart_check_parity (flipSample (larpix_uart_set_parity p) k) ≠ 0)
    ∧ larpix_uart_compute_parity blankPacket = 1 := by
  refine ⟨check_parity_after_set_parity p, ?_, by decide⟩
  intro k hk
  apply check_parity_flip
  · exact hk
  · rw [set_parity_data_of_lt p k hk]
    exact hp k
  · exact check_parity_after_set_parity p

/-- Witness for larpix_c7_parity on the all-zero packet, flipping offset 7. -/
theorem larpix_c7_witness :
    larpix_uart_check_parity (larpix_uart_set_parity blankPacket) = 0
    ∧ larpix_uart_check_parity (flipSample (larpix_uart_set_parity blankPacket) 7) ≠ 0 := by
  have h := larpix_c7_parity blankPacket (fun i => Or.inl rfl)
  exact ⟨h.1, h.2.1 7 (by decide)⟩

/-- Samples outside the framing footprint are untouched by the start/stop
loop of larpix_uart_to_data. -/
theorem startStopLoop_outside (ch : Nat → Nat) (s size q : Nat) (j : Nat) (hj : j ≤ size)
    (hq : q < s ∨ s + size ≤ q) :
    startStopLoop ch s size j q = ch q := by
  induction j with
  | zero => rfl
  | succ m ih =>
      simp only [startStopLoop, upd]
      rw [if_neg (by omega), if_neg (by omega)]
      exact ih (by omega)

/-- Samples outside the framing footprint are untouched by the inner data
loop of larpix_uart_to_data (production layout: 4 bits per baud, footprint
224 samples). -/
theorem uartDataInner_outside (ch : Nat → Nat) (s i v q : Nat) (m : Nat) (hm : m ≤ 4)
    (hi : i < 54) (hq : q < s ∨ s + 224 ≤ q) :
    uartDataInner ch s 4 i v m q = ch q := by
  induction m with
  | zero => rfl
  | succ n ih =>
      simp only [uartDataInner, upd]
      rw [if_neg (by omega)]
      exact ih (by omega)

/-- Samples outside the framing footprint are untouched by the outer data
loop of larpix_uart_to_data. -/
theorem uartDataLoop_outside (p : larpix_uart_packet) (ch : Nat → Nat) (s q : Nat)
    (m : Nat) (hm : m ≤ 54) (hq : q < s ∨ s + 224 ≤ q) :
    uartDataLoop p ch s 4 m q = ch q := by
  induction m with
  | zero => rfl
  | succ n ih =>
      simp only [uartDataLoop]
      rw [uartDataInner_outside (uartDataLoop p ch s 4 n) s n (p.data n) q 4 le_rfl
        (by omega) hq]
      exact ih (by omega)

/-- C10: when larpix_uart_to_data succeeds, every channel other than the
target is completely unchanged, and within the target channel every sample
outside the window of (54 + 2) * bits_per_baud samples starting at the
requested offset is unchanged. -/
theorem larpix_c10_frame_effect (p : larpix_uart_packet) (d : larpix_data)
    (bit_position startbit : Nat)
    (h : (larpix_uart_to_data p d bit_position startbit).1 = 0) :
    (∀ c, c ≠ bit_position → ∀ i,
      (larpix_uart_to_data p d bit_position startbit).2.bits c i = d.bits c i)
    ∧ (∀ i, i < startbit ∨
        startbit + (LARPIX_UART_SIZE + 2) * LARPIX_BITS_PER_BAUD ≤ i →
      (larpix_uart_to_data p d bit_position startbit).2.bits bit_position i =
        d.bits bit_position i) := by
  by_cases hc :
      startbit + (LARPIX_UART_SIZE + 2) * LARPIX_BITS_PER_BAUD > LARPIX_BUFFER_SIZE
  · exfalso
    simp only [larpix_uart_to_data, if_pos hc] at h
    omega
  · constructor
    · intro c hcne i
      simp only [larpix_uart_to_data, if_neg hc]
      rw [if_neg hcne]
    · intro i hi
      simp only [larpix_uart_to_data, if_neg hc]
      simp only [if_true]
      simp only [LARPIX_UART_SIZE, LARPIX_BITS_PER_BAUD] at hi ⊢
      norm_num at hi ⊢
      rw [uartDataLoop_outside p _ startbit i 54 le_rfl hi,
        startStopLoop_outside (d.bits bit_position) startbit 224 i 4 (by omega) hi]

/-- Witness for larpix_c10_frame_effect: embedding a packet on channel 0 at
offset 0 of the all-zero buffer leaves channel 1 untouched at index 5 and
channel 0 untouched at index 300. -/
theorem larpix_c10_witness :
    (larpix_uart_to_data blankPacket blankData 0 0).2.bits 1 5 = blankData.bits 1 5
    ∧ (larpix_uart_to_data blankPacket blankData 0 0).2.bits 0 300 = blankData.bits 0 300 := by
  have h := larpix_c10_frame_effect blankPacket blankData 0 0 (by decide)
  exact ⟨h.1 1 (by decide) 5, h.2 300 (by decide)⟩

/-- Packet whose sample 0 is 1 and all other samples 0, used as the framing
round-trip failing input. -/
def c2Packet : larpix_uart_packet := ⟨fun k => if k = 0 then 1 else 0⟩

set_option maxRecDepth 100000 in
/-- C2 evaluation: embedding c2Packet on channel 0 at offset 0 succeeds,
but extracting from the same channel and offset returns sample 0 as 0 even
though the embedded packet has sample 0 equal to 1 — the round trip claimed
by the spec fails because larpix_data_to_uart reads consecutive samples at
offsets startbit+1.. while larpix_uart_to_data writes each logical bit as 4
oversampled samples starting at startbit+4. -/
theorem larpix_c2_framing_roundtrip_fails :
    (larpix_uart_to_data c2Packet blankData 0 0).1 = 0
    ∧ (larpix_data_to_uart blankPacket (larpix_uart_to_data c2Packet blankData 0 0).2 0 0).1 = 0
    ∧ (larpix_data_to_uart blankPacket
        (larpix_uart_to_data c2Packet blankData 0 0).2 0 0).2.data 0 = 0
    ∧ c2Packet.data 0 = 1 := by
  refine ⟨by decide, by decide, ?_, by decide⟩
  decide

/-- packByte over m channels stays below 2 ^ m. -/
theorem packByte_lt (d : larpix_data) (i m : Nat) : packByte d i m < 2 ^ m := by
  induction m with
  | zero => simp [packByte]
  | succ n ih =>
      simp only [packByte]
      have hle : (if d.bits n i ≠ 0 then 1 <<< n else 0) ≤ 2 ^ n := by
        rw [Nat.one_shiftLeft]
        split <;> omega
      have hp : 2 ^ (n + 1) = 2 ^ n * 2 := pow_succ 2 n
      omega

/-- Bit k of the byte produced by packByte is channel k at that sample
index, for buffers whose samples are binary. -/
theorem packByte_bit (d : larpix_data) (i : Nat)
    (hd : ∀ c j, d.bits c j = 0 ∨ d.bits c j = 1) :
    ∀ m k, k < m → packByte d i m / 2 ^ k % 2 = d.bits k i := by
  intro m
  induction m with
  | zero => intro k hk; omega
  | succ n ih =>
      intro k hk
      by_cases hkn : k = n
      · subst hkn
        simp only [packByte]
        have hA := packByte_lt d i k
        have ht : (if d.bits k i ≠ 0 then 1 <<< k else 0) = 2 ^ k * d.bits k i := by
          rcases hd k i with h | h <;> simp [h, Nat.one_shiftLeft]
        rw [ht, Nat.add_mul_div_left _ _ (Nat.two_pow_pos k), Nat.div_eq_of_lt hA]
        rcases hd k i with h | h <;> simp [h]
      · have hkn2 : k < n := by omega
        simp only [packByte]
        have ht : (if d.bits n i ≠ 0 then 1 <<< n else 0) = 2 ^ n * d.bits n i := by
          rcases hd n i with h | h <;> simp [h, Nat.one_shiftLeft]
        have hexp : k + (n - k - 1) + 1 = n := by omega
        have hpow : (2 : Nat) ^ n = 2 ^ k * 2 ^ (n - k - 1) * 2 := by
          calc (2 : Nat) ^ n = 2 ^ (k + (n - k - 1) + 1) := by rw [hexp]
            _ = 2 ^ (k + (n - k - 1)) * 2 := pow_succ 2 _
            _ = 2 ^ k * 2 ^ (n - k - 1) * 2 := by rw [pow_add]
        have hfac : (2 : Nat) ^ n * d.bits n i =
            2 ^ k * (2 * (2 ^ (n - k - 1) * d.bits n i)) := by
          rw [hpow]
          ring
        rw [ht, hfac, Nat.add_mul_div_left _ _ (Nat.two_pow_pos k)]
        have hmod : (packByte d i n / 2 ^ k + 2 * (2 ^ (n - k - 1) * d.bits n i)) % 2 =
            packByte d i n / 2 ^ k % 2 := by omega
        rw [hmod, ih k hkn2]

/-- Pointwise description of the inner loop of larpix_array_to_data. -/
theorem arrayToDataInner_apply (array : List Nat) (i : Nat) (bits : Nat → Nat → Nat)
    (m c j : Nat) :
    arrayToDataInner array i bits m c j =
      if c < m ∧ j = i then (if (1 <<< c) &&& array.getD i 0 ≠ 0 then 1 else 0)
      else bits c j := by
  induction m with
  | zero =>
      simp only [arrayToDataInner]
      have hcond : ¬(c < 0 ∧ j = i) := by omega
      rw [if_neg hcond]
  | succ n ih =>
      simp only [arrayToDataInner]
      by_cases hc : c = n
      · rw [if_pos hc]
        subst hc
        simp only [upd]
        by_cases hj : j = i
        · have hcond : c < c + 1 ∧ j = i := ⟨Nat.lt_succ_self c, hj⟩
          rw [if_pos hj, if_pos hcond]
        · have hcond1 : ¬(c < c ∧ j = i) := fun hcon => hj hcon.2
          have hcond2 : ¬(c < c + 1 ∧ j = i) := fun hcon => hj hcon.2
          rw [if_neg hj, ih, if_neg hcond1, if_neg hcond2]
      · rw [if_neg hc, ih]
        have hiff : (c < n ∧ j = i) ↔ (c < n + 1 ∧ j = i) := by
          constructor
          · exact fun hcon => ⟨by omega, hcon.2⟩
          · exact fun hcon => ⟨by omega, hcon.2⟩
        simp only [hiff]

/-- Pointwise description of the outer loop of larpix_array_to_data. -/
theorem arrayToDataLoop_apply (array : List Nat) (bits : Nat → Nat → Nat) (n c j : Nat) :
    arrayToDataLoop array bits n c j =
      if c < 8 ∧ j < n then (if (1 <<< c) &&& array.getD j 0 ≠ 0 then 1 else 0)
      else bits c j := by
  induction n with
  | zero =>
      simp only [arrayToDataLoop]
      have hcond : ¬(c < 8 ∧ j < 0) := by omega
      rw [if_neg hcond]
  | succ m ih =>
      simp only [arrayToDataLoop]
      rw [arrayToDataInner_apply]
      by_cases hj : j = m
      · subst hj
        by_cases hc : c < 8
        · have hcond1 : c < 8 ∧ j = j := ⟨hc, rfl⟩
          have hcond2 : c < 8 ∧ j < j + 1 := ⟨hc, Nat.lt_succ_self j⟩
          rw [if_pos hcond1, if_pos hcond2]
        · have hcond1 : ¬(c < 8 ∧ j = j) := fun hcon => hc hcon.1
          have hcond2 : ¬(c < 8 ∧ j < j) := fun hcon => hc hcon.1
          have hcond3 : ¬(c < 8 ∧ j < j + 1) := fun hcon => hc hcon.1
          rw [if_neg hcond1, ih, if_neg hcond2, if_neg hcond3]
      · have hcond1 : ¬(c < 8 ∧ j = m) := fun hcon => hj hcon.2
        rw [if_neg hcond1, ih]
        have hiff : (c < 8 ∧ j < m) ↔ (c < 8 ∧ j < m + 1) := by omega
        simp only [hiff]

/-- Byte i of the output of larpix_data_to_array is the packed byte of
sample index i. -/
theorem larpix_data_to_array_getD (d : larpix_data) (nbytes i : Nat)
    (hi : i < min nbytes LARPIX_BUFFER_SIZE) :
    (larpix_data_to_array d nbytes).getD i 0 = packByte d i 8 := by
  unfold larpix_data_to_array
  rw [List.getD_eq_getElem?_getD, List.getElem?_map, List.getElem?_range hi]
  rfl

/-- C9: for a buffer with binary samples, bit k of byte i produced by
larpix_data_to_array is channel k at sample index i (LSB is channel 0), and
feeding those bytes back through larpix_array_to_data restores every
channel at every index below the clamped count. -/
theorem larpix_c9_byte_packing (d : larpix_data) (nbytes : Nat)
    (hd : ∀ c j, d.bits c j = 0 ∨ d.bits c j = 1) (i : Nat)
    (hi : i < min nbytes LARPIX_BUFFER_SIZE) (k : Nat) (hk : k < 8) :
    ((larpix_data_to_array d nbytes).getD i 0) / 2 ^ k % 2 = d.bits k i
    ∧ (larpix_array_to_data d (larpix_data_to_array d nbytes) nbytes).bits k i =
        d.bits k i := by
  have hbyte := larpix_data_to_array_getD d nbytes i hi
  constructor
  · rw [hbyte]
    exact packByte_bit d i hd 8 k hk
  · show arrayToDataLoop (larpix_data_to_array d nbytes) d.bits
      (min nbytes LARPIX_BUFFER_SIZE) k i = d.bits k i
    have hcond : k < 8 ∧ i < min nbytes LARPIX_BUFFER_SIZE := ⟨hk, hi⟩
    rw [arrayToDataLoop_apply, if_pos hcond, hbyte]
    have hb := packByte_bit d i hd 8 k hk
    rw [Nat.one_shiftLeft,
      Nat.and_comm ((2 : Nat) ^ k) (packByte d i 8),
      Nat.and_two_pow, Nat.testBit_to_div_mod, hb]
    have h2k : (2 : Nat) ^ k ≠ 0 := (Nat.two_pow_pos k).ne'
    rcases hd k i with h | h <;> simp [h, h2k]

/-- Witness for larpix_c9_byte_packing on the all-zero buffer with ten
bytes, sample index 3 and channel 2. -/
theorem larpix_c9_witness :
    ((larpix_data_to_array blankData 10).getD 3 0) / 2 ^ 2 % 2 = blankData.bits 2 3
    ∧ (larpix_array_to_data blankData (larpix_data_to_array blankData 10) 10).bits 2 3 =
        blankData.bits 2 3 :=
  larpix_c9_byte_packing blankData 10 (fun _ _ => Or.inl rfl) 3 (by decide) 2 (by decide)

/-- Position k of the larpix_config_write_all output is the k-th write of
the fixed sequence applied to the caller packet at position k. -/
theorem larpix_config_write_all_getD (c : larpix_configuration)
    (ps : List larpix_uart_packet) (k : Nat) (hk : k < LARPIX_NUM_CONFIG_REGISTERS) :
    (larpix_config_write_all c ps).getD k blankPacket =
      writeReg c k (ps.getD k blankPacket) := by
  unfold larpix_config_write_all
  rw [List.getD_eq_getElem?_getD, List.getElem?_map, List.getElem?_range hk]
  rfl

/-- C4: for every configuration, the 63 packets emitted by
larpix_config_write_all carry register addresses that are exactly
0, 1, ..., 62 in order: the packet at position k reads back address k. -/
theorem larpix_c4_write_all_addresses (c : larpix_configuration)
    (ps : List larpix_uart_packet) (k : Nat) (hk : k < LARPIX_NUM_CONFIG_REGISTERS) :
    larpix_uart_get_register ((larpix_config_write_all c ps).getD k blankPacket) = k := by
  rw [larpix_config_write_all_getD c ps k hk]
  unfold writeReg
  simp only [LARPIX_NUM_CONFIG_REGISTERS] at hk
  interval_cases k <;>
    simp [larpix_config_write_pixel_trim_threshold, larpix_config_write_global_threshold,
      larpix_config_write_csa_gain_and_bypasses, larpix_config_write_csa_bypass_select,
      larpix_config_write_csa_monitor_select, larpix_config_write_csa_testpulse_enable,
      larpix_config_write_csa_testpulse_dac_amplitude,
      larpix_config_write_test_mode_xtrig_reset_diag, larpix_config_write_sample_cycles,
      larpix_config_write_test_burst_length, larpix_config_write_adc_burst_length,
      larpix_config_write_channel_mask, larpix_config_write_external_trigger_mask,
      larpix_config_write_reset_cycles,
      get_register_after_set_register_data, get_register_after_set_register,
      LARPIX_REG_PIXEL_TRIM_THRESHOLD_LOW, LARPIX_REG_GLOBAL_THRESHOLD,
      LARPIX_REG_CSA_GAIN_AND_BYPASSES, LARPIX_REG_CSA_BYPASS_SELECT_LOW,
      LARPIX_REG_CSA_MONITOR_SELECT_LOW, LARPIX_REG_CSA_TESTPULSE_ENABLE_LOW,
      LARPIX_REG_CSA_TESTPULSE_DAC_AMPLITUDE, LARPIX_REG_TEST_MODE_XTRIG_RESET_DIAG,
      LARPIX_REG_SAMPLE_CYCLES, LARPIX_REG_TEST_BURST_LENGTH_LOW,
      LARPIX_REG_ADC_BURST_LENGTH, LARPIX_REG_CHANNEL_MASK_LOW,
      LARPIX_REG_EXTERNAL_TRIGGER_MASK_LOW, LARPIX_REG_RESET_CYCLES_LOW]

/-- Witness for larpix_c4_write_all_addresses at position 0 of the default
configuration. -/
theorem larpix_c4_witness :
    larpix_uart_get_register
      ((larpix_config_write_all larpix_config_init_defaults []).getD 0 blankPacket) = 0 :=
  larpix_c4_write_all_addresses larpix_config_init_defaults [] 0 (by decide)

/-- All-zero configuration used as the decode destination in round-trip
evaluations. -/
def zeroConfig : larpix_configuration where
  pixel_trim_thresholds := fun _ => 0
  global_threshold := 0
  csa_gain := 0
  csa_bypass := 0
  internal_bypass := 0
  csa_bypass_select := fun _ => 0
  csa_monitor_select := fun _ => 0
  csa_testpulse_enable := fun _ => 0
  csa_testpulse_dac_amplitude := 0
  test_mode := 0
  cross_trigger_mode := 0
  periodic_reset := 0
  fifo_diagnostic := 0
  sample_cycles := 0
  test_burst_length := fun _ => 0
  adc_burst_length := 0
  channel_mask := fun _ => 0
  external_trigger_mask := fun _ => 0
  reset_cycles := fun _ => 0

/-- The 63 caller-supplied packets handed to larpix_config_write_all, all
zero-initialized. -/
def blankPackets63 : List larpix_uart_packet := List.replicate 63 blankPacket

set_option maxRecDepth 1000000 in
/-- C1 evaluation at the failing input: writing the default configuration
with larpix_config_write_all and decoding the 63 packets back with
larpix_config_read_all returns status 0, yet the decoded configuration has
test_burst_length[1] = 0x10 (the reset-cycles byte stored there by larpix.c
line 1174) instead of the original 0xFF, and reset_cycles[1] stays at the
destination value 0 instead of the original 0x10 — the claimed field-by-
field round trip fails. -/
theorem larpix_c1_reset_cycles_bug :
    (larpix_config_read_all zeroConfig
      (larpix_config_write_all larpix_config_init_defaults blankPackets63)).1 = 0
    ∧ (larpix_config_read_all zeroConfig
        (larpix_config_write_all larpix_config_init_defaults
          blankPackets63)).2.test_burst_length 1 = 0x10
    ∧ (larpix_config_read_all zeroConfig
        (larpix_config_write_all larpix_config_init_defaults
          blankPackets63)).2.reset_cycles 1 = 0
    ∧ larpix_config_init_defaults.test_burst_length 1 = 0xFF
    ∧ larpix_config_init_defaults.reset_cycles 1 = 0x10 := by
  exact ⟨by decide, by decide, by decide, by decide, by decide⟩

/-- Base packet array: the default configuration serialized by
larpix_config_write_all. -/
def basePackets : List larpix_uart_packet :=
  larpix_config_write_all larpix_config_init_defaults blankPackets63

/-- basePackets with the packets at positions 34 and 35 exchanged (two
registers of the four-register bypass-select group). -/
def swappedPackets : List larpix_uart_packet :=
  (basePackets.set 34 (basePackets.getD 35 blankPacket)).set 35
    (basePackets.getD 34 blankPacket)

set_option maxRecDepth 1000000 in
/-- C5 counterexample: in swappedPackets the packet at position 34 declares
register address 35, which differs from the address expected for its
position, yet larpix_config_read_all returns status 0 — the chunked
bypass-select reader accepts any address in its four-register range, so
this reordering goes undetected. -/
theorem larpix_c5_counterexample :
    larpix_uart_get_register (swappedPackets.getD 34 blankPacket) = 35
    ∧ (larpix_config_read_all zeroConfig swappedPackets).1 = 0 := by
  exact ⟨by decide, by decide⟩

/-- Address acceptance condition of the position-k reader inside
larpix_config_read_all: the scalar and pixel-trim readers demand the exact
address of their position, while the chunked readers (bypass select,
monitor select, testpulse enable, test burst length, channel mask, external
trigger mask, reset cycles) accept any address of their register range, as
coded in their guards in larpix.c. -/
def regAddrOk (k a : Nat) : Prop :=
  if k < 32 then a = k
  else if k = 32 then a = 32
  else if k = 33 then a = 33
  else if k < 38 then 34 ≤ a ∧ a ≤ 37
  else if k < 42 then 38 ≤ a ∧ a ≤ 41
  else if k < 46 then 42 ≤ a ∧ a ≤ 45
  else if k = 46 then a = 46
  else if k = 47 then a = 47
  else if k = 48 then a = 48
  else if k < 51 then 49 ≤ a ∧ a ≤ 50
  else if k = 51 then a = 51
  else if k < 56 then 52 ≤ a ∧ a ≤ 55
  else if k < 60 then 56 ≤ a ∧ a ≤ 59
  else 60 ≤ a ∧ a ≤ 62

instance regAddrOk_decidable (k a : Nat) : Decidable (regAddrOk k a) := by
  unfold regAddrOk
  infer_instance

/-- Status of the pixel-trim reader as a function of the packet address. -/
theorem read_pixel_trim_status (c : larpix_configuration) (p : larpix_uart_packet)
    (channelid : Nat) :
    (larpix_config_read_pixel_trim_threshold c p channelid).1 =
      if larpix_uart_get_register p = channelid then 0 else 1 := by
  unfold larpix_config_read_pixel_trim_threshold
  simp only [LARPIX_REG_PIXEL_TRIM_THRESHOLD_LOW]
  by_cases h : channelid ≠ larpix_uart_get_register p - 0
  · have hn : ¬(larpix_uart_get_register p = channelid) := by omega
    rw [if_pos h, if_neg hn]
  · have hp : larpix_uart_get_register p = channelid := by omega
    rw [if_neg h, if_pos hp]

/-- Status of the global-threshold reader. -/
theorem read_global_threshold_status (c : larpix_configuration) (p : larpix_uart_packet) :
    (larpix_config_read_global_threshold c p).1 =
      if larpix_uart_get_register p = 32 then 0 else 1 := by
  unfold larpix_config_read_global_threshold
  simp only [LARPIX_REG_GLOBAL_THRESHOLD]
  by_cases h : larpix_uart_get_register p ≠ 32
  · rw [if_pos h, if_neg h]
  · rw [if_neg h, if_pos (not_not.mp h)]

/-- Status of the gain-and-bypasses reader. -/
theorem read_csa_gain_status (c : larpix_configuration) (p : larpix_uart_packet) :
    (larpix_config_read_csa_gain_and_bypasses c p).1 =
      if larpix_uart_get_register p = 33 then 0 else 1 := by
  unfold larpix_config_read_csa_gain_and_bypasses
  simp only [LARPIX_REG_CSA_GAIN_AND_BYPASSES]
  by_cases h : larpix_uart_get_register p ≠ 33
  · rw [if_pos h, if_neg h]
  · rw [if_neg h, if_pos (not_not.mp h)]

/-- Status of the bypass-select reader. -/
theorem read_csa_bypass_select_status (c : larpix_configuration) (p : larpix_uart_packet) :
    (larpix_config_read_csa_bypass_select c p).1 =
      if 34 ≤ larpix_uart_get_register p ∧ larpix_uart_get_register p ≤ 37 then 0 else 1 := by
  unfold larpix_config_read_csa_bypass_select
  simp only [LARPIX_REG_CSA_BYPASS_SELECT_LOW, LARPIX_REG_CSA_BYPASS_SELECT_HIGH]
  by_cases h : larpix_uart_get_register p < 34 ∨ larpix_uart_get_register p > 37
  · have hn : ¬(34 ≤ larpix_uart_get_register p ∧ larpix_uart_get_register p ≤ 37) := by omega
    rw [if_pos h, if_neg hn]
  · have hp : 34 ≤ larpix_uart_get_register p ∧ larpix_uart_get_register p ≤ 37 := by omega
    rw [if_neg h, if_pos hp]

/-- Status of the monitor-select reader. -/
theorem read_csa_monitor_select_status (c : larpix_configuration) (p : larpix_uart_packet) :
    (larpix_config_read_csa_monitor_select c p).1 =
      if 38 ≤ larpix_uart_get_register p ∧ larpix_uart_get_register p ≤ 41 then 0 else 1 := by
  unfold larpix_config_read_csa_monitor_select
  simp only [LARPIX_REG_CSA_MONITOR_SELECT_LOW, LARPIX_REG_CSA_MONITOR_SELECT_HIGH]
  by_cases h : larpix_uart_get_register p < 38 ∨ larpix_uart_get_register p > 41
  · have hn : ¬(38 ≤ larpix_uart_get_register p ∧ larpix_uart_get_register p ≤ 41) := by omega
    rw [if_pos h, if_neg hn]
  · have hp : 38 ≤ larpix_uart_get_register p ∧ larpix_uart_get_register p ≤ 41 := by omega
    rw [if_neg h, if_pos hp]

/-- Status of the testpulse-enable reader. -/
theorem read_csa_testpulse_enable_status (c : larpix_configuration) (p : larpix_uart_packet) :
    (larpix_config_read_csa_testpulse_enable c p).1 =
      if 42 ≤ larpix_uart_get_register p ∧ larpix_uart_get_register p ≤ 45 then 0 else 1 := by
  unfold larpix_config_read_csa_testpulse_enable
  simp only [LARPIX_REG_CSA_TESTPULSE_ENABLE_LOW, LARPIX_REG_CSA_TESTPULSE_ENABLE_HIGH]
  by_cases h : larpix_uart_get_register p < 42 ∨ larpix_uart_get_register p > 45
  · have hn : ¬(42 ≤ larpix_uart_get_register p ∧ larpix_uart_get_register p ≤ 45) := by omega
    rw [if_pos h, if_neg hn]
  · have hp : 42 ≤ larpix_uart_get_register p ∧ larpix_uart_get_register p ≤ 45 := by omega
    rw [if_neg h, if_pos hp]

/-- Status of the dac-amplitude reader. -/
theorem read_dac_amplitude_status (c : larpix_configuration) (p : larpix_uart_packet) :
    (larpix_config_read_csa_testpulse_dac_amplitude c p).1 =
      if larpix_uart_get_register p = 46 then 0 else 1 := by
  unfold larpix_config_read_csa_testpulse_dac_amplitude
  simp only [LARPIX_REG_CSA_TESTPULSE_DAC_AMPLITUDE]
  by_cases h : larpix_uart_get_register p ≠ 46
  · rw [if_pos h, if_neg h]
  · rw [if_neg h, if_pos (not_not.mp h)]

/-- Status of the test-mode reader. -/
theorem read_test_mode_status (c : larpix_configuration) (p : larpix_uart_packet) :
    (larpix_config_read_test_mode_xtrig_reset_diag c p).1 =
      if larpix_uart_get_register p = 47 then 0 else 1 := by
  unfold larpix_config_read_test_mode_xtrig_reset_diag
  simp only [LARPIX_REG_TEST_MODE_XTRIG_RESET_DIAG]
  by_cases h : larpix_uart_get_register p ≠ 47
  · rw [if_pos h, if_neg h]
  · rw [if_neg h, if_pos (not_not.mp h)]

/-- Status of the sample-cycles reader. -/
theorem read_sample_cycles_status (c : larpix_configuration) (p : larpix_uart_packet) :
    (larpix_config_read_sample_cycles c p).1 =
      if larpix_uart_get_register p = 48 then 0 else 1 := by
  unfold larpix_config_read_sample_cycles
  simp only [LARPIX_REG_SAMPLE_CYCLES]
  by_cases h : larpix_uart_get_register p ≠ 48
  · rw [if_pos h, if_neg h]
  · rw [if_neg h, if_pos (not_not.mp h)]

/-- Status of the test-burst-length reader. -/
theorem read_test_burst_status (c : larpix_configuration) (p : larpix_uart_packet) :
    (larpix_config_read_test_burst_length c p).1 =
      if 49 ≤ larpix_uart_get_register p ∧ larpix_uart_get_register p ≤ 50 then 0 else 1 := by
  unfold larpix_config_read_test_burst_length
  simp only [LARPIX_REG_TEST_BURST_LENGTH_LOW, LARPIX_REG_TEST_BURST_LENGTH_HIGH]
  by_cases h : larpix_uart_get_register p < 49 ∨ larpix_uart_get_register p > 50
  · have hn : ¬(49 ≤ larpix_uart_get_register p ∧ larpix_uart_get_register p ≤ 50) := by omega
    rw [if_pos h, if_neg hn]
  · have hp : 49 ≤ larpix_uart_get_register p ∧ larpix_uart_get_register p ≤ 50 := by omega
    rw [if_neg h, if_pos hp]

/-- Status of the adc-burst-length reader. -/
theorem read_adc_burst_status (c : larpix_configuration) (p : larpix_uart_packet) :
    (larpix_config_read_adc_burst_length c p).1 =
      if larpix_uart_get_register p = 51 then 0 else 1 := by
  unfold larpix_config_read_adc_burst_length
  simp only [LARPIX_REG_ADC_BURST_LENGTH]
  by_cases h : larpix_uart_get_register p ≠ 51
  · rw [if_pos h, if_neg h]
  · rw [if_neg h, if_pos (not_not.mp h)]

/-- Status of the channel-mask reader. -/
theorem read_channel_mask_status (c : larpix_configuration) (p : larpix_uart_packet) :
    (larpix_config_read_channel_mask c p).1 =
      if 52 ≤ larpix_uart_get_register p ∧ larpix_uart_get_register p ≤ 55 then 0 else 1 := by
  unfold larpix_config_read_channel_mask
  simp only [LARPIX_REG_CHANNEL_MASK_LOW, LARPIX_REG_CHANNEL_MASK_HIGH]
  by_cases h : larpix_uart_get_register p < 52 ∨ larpix_uart_get_register p > 55
  · have hn : ¬(52 ≤ larpix_uart_get_register p ∧ larpix_uart_get_register p ≤ 55) := by omega
    rw [if_pos h, if_neg hn]
  · have hp : 52 ≤ larpix_uart_get_register p ∧ larpix_uart_get_register p ≤ 55 := by omega
    rw [if_neg h, if_pos hp]

/-- Status of the external-trigger-mask reader. -/
theorem read_ext_trigger_status (c : larpix_configuration) (p : larpix_uart_packet) :
    (larpix_config_read_external_trigger_mask c p).1 =
      if 56 ≤ larpix_uart_get_register p ∧ larpix_uart_get_register p ≤ 59 then 0 else 1 := by
  unfold larpix_config_read_external_trigger_mask
  simp only [LARPIX_REG_EXTERNAL_TRIGGER_MASK_LOW, LARPIX_REG_EXTERNAL_TRIGGER_MASK_HIGH]
  by_cases h : larpix_uart_get_register p < 56 ∨ larpix_uart_get_register p > 59
  · have hn : ¬(56 ≤ larpix_uart_get_register p ∧ larpix_uart_get_register p ≤ 59) := by omega
    rw [if_pos h, if_neg hn]
  · have hp : 56 ≤ larpix_uart_get_register p ∧ larpix_uart_get_register p ≤ 59 := by omega
    rw [if_neg h, if_pos hp]

/-- Status of the reset-cycles reader. -/
theorem read_reset_cycles_status (c : larpix_configuration) (p : larpix_uart_packet) :
    (larpix_config_read_reset_cycles c p).1 =
      if 60 ≤ larpix_uart_get_register p ∧ larpix_uart_get_register p ≤ 62 then 0 else 1 := by
  unfold larpix_config_read_reset_cycles
  simp only [LARPIX_REG_RESET_CYCLES_LOW, LARPIX_REG_RESET_CYCLES_HIGH]
  by_cases h : larpix_uart_get_register p < 60 ∨ larpix_uart_get_register p > 62
  · have hn : ¬(60 ≤ larpix_uart_get_register p ∧ larpix_uart_get_register p ≤ 62) := by omega
    rw [if_pos h, if_neg hn]
  · have hp : 60 ≤ larpix_uart_get_register p ∧ larpix_uart_get_register p ≤ 62 := by omega
    rw [if_neg h, if_pos hp]

/-- Status returned by the position-k reader: 0 when the packet address is
accepted, 1 otherwise, independent of the configuration being decoded. -/
theorem readReg_status (k : Nat) (p : larpix_uart_packet) (c : larpix_configuration) :
    (readReg k p c).1 = if regAddrOk k (larpix_uart_get_register p) then 0 else 1 := by
  unfold readReg
  by_cases h1 : k < 32
  · have hiff : regAddrOk k (larpix_uart_get_register p) ↔ larpix_uart_get_register p = k := by
      unfold regAddrOk
      rw [if_pos h1]
    rw [if_pos h1, read_pixel_trim_status]
    simp only [hiff]
  rw [if_neg h1]
  by_cases h2 : k = 32
  · have hiff : regAddrOk k (larpix_uart_get_register p) ↔ larpix_uart_get_register p = 32 := by
      unfold regAddrOk
      rw [if_neg h1, if_pos h2]
    rw [if_pos h2, read_global_threshold_status]
    simp only [hiff]
  rw [if_neg h2]
  by_cases h3 : k = 33
  · have hiff : regAddrOk k (larpix_uart_get_register p) ↔ larpix_uart_get_register p = 33 := by
      unfold regAddrOk
      rw [if_neg h1, if_neg h2, if_pos h3]
    rw [if_pos h3, read_csa_gain_status]
    simp only [hiff]
  rw [if_neg h3]
  by_cases h4 : k < 38
  · have hiff : regAddrOk k (larpix_uart_get_register p) ↔ 34 ≤ larpix_uart_get_register p ∧ larpix_uart_get_register p ≤ 37 := by
      unfold regAddrOk
      rw [if_neg h1, if_neg h2, if_neg h3, if_pos h4]
    rw [if_pos h4, read_csa_bypass_select_status]
    simp only [hiff]
  rw [if_neg h4]
  by_cases h5 : k < 42
  · have hiff : regAddrOk k (larpix_uart_get_register p) ↔ 38 ≤ larpix_uart_get_register p ∧ larpix_uart_get_register p ≤ 41 := by
      unfold regAddrOk
      rw [if_neg h1, if_neg h2, if_neg h3, if_neg h4, if_pos h5]
    rw [if_pos h5, read_csa_monitor_select_status]
    simp only [hiff]
  rw [if_neg h5]
  by_cases h6 : k < 46
  · have hiff : regAddrOk k (larpix_uart_get_register p) ↔ 42 ≤ larpix_uart_get_register p ∧ larpix_uart_get_register p ≤ 45 := by
      unfold regAddrOk
      rw [if_neg h1, if_neg h2, if_neg h3, if_neg h4, if_neg h5, if_pos h6]
    rw [if_pos h6, read_csa_testpulse_enable_status]
    simp only [hiff]
  rw [if_neg h6]
  by_cases h7 : k = 46
  · have hiff : regAddrOk k (larpix_uart_get_register p) ↔ larpix_uart_get_register p = 46 := by
      unfold regAddrOk
      rw [if_neg h1, if_neg h2, if_neg h3, if_neg h4, if_neg h5, if_neg h6, if_pos h7]
    rw [if_pos h7, read_dac_amplitude_status]
    simp only [hiff]
  rw [if_neg h7]
  by_cases h8 : k = 47
  · have hiff : regAddrOk k (larpix_uart_get_register p) ↔ larpix_uart_get_register p = 47 := by
      unfold regAddrOk
      rw [if_neg h1, if_neg h2, if_neg h3, if_neg h4, if_neg h5, if_neg h6, if_neg h7, if_pos h8]
    rw [if_pos h8, read_test_mode_status]
    simp only [hiff]
  rw [if_neg h8]
  by_cases h9 : k = 48
  · have hiff : regAddrOk k (larpix_uart_get_register p) ↔ larpix_uart_get_register p = 48 := by
      unfold regAddrOk
      rw [if_neg h1, if_neg h2, if_neg h3, if_neg h4, if_neg h5, if_neg h6, if_neg h7, if_neg h8, if_pos h9]
    rw [if_pos h9, read_sample_cycles_status]
    simp only [hiff]
  rw [if_neg h9]
  by_cases h10 : k < 51
  · have hiff : regAddrOk k (larpix_uart_get_register p) ↔ 49 ≤ larpix_uart_get_register p ∧ larpix_uart_get_register p ≤ 50 := by
      unfold regAddrOk
      rw [if_neg h1, if_neg h2, if_neg h3, if_neg h4, if_neg h5, if_neg h6, if_neg h7, if_neg h8, if_neg h9, if_pos h10]
    rw [if_pos h10, read_test_burst_status]
    simp only [hiff]
  rw [if_neg h10]
  by_cases h11 : k = 51
  · have hiff : regAddrOk k (larpix_uart_get_register p) ↔ larpix_uart_get_register p = 51 := by
      unfold regAddrOk
      rw [if_neg h1, if_neg h2, if_neg h3, if_neg h4, if_neg h5, if_neg h6, if_neg h7, if_neg h8, if_neg h9, if_neg h10, if_pos h11]
    rw [if_pos h11, read_adc_burst_status]
    simp only [hiff]
  rw [if_neg h11]
  by_cases h12 : k < 56
  · have hiff : regAddrOk k (larpix_uart_get_register p) ↔ 52 ≤ larpix_uart_get_register p ∧ larpix_uart_get_register p ≤ 55 := by
      unfold regAddrOk
      rw [if_neg h1, if_neg h2, if_neg h3, if_neg h4, if_neg h5, if_neg h6, if_neg h7, if_neg h8, if_neg h9, if_neg h10, if_neg h11, if_pos h12]
    rw [if_pos h12, read_channel_mask_status]
    simp only [hiff]
  rw [if_neg h12]
  by_cases h13 : k < 60
  · have hiff : regAddrOk k (larpix_uart_get_register p) ↔ 56 ≤ larpix_uart_get_register p ∧ larpix_uart_get_register p ≤ 59 := by
      unfold regAddrOk
      rw [if_neg h1, if_neg h2, if_neg h3, if_neg h4, if_neg h5, if_neg h6, if_neg h7, if_neg h8, if_neg h9, if_neg h10, if_neg h11, if_neg h12, if_pos h13]
    rw [if_pos h13, read_ext_trigger_status]
    simp only [hiff]
  rw [if_neg h13]
  have hiff : regAddrOk k (larpix_uart_get_register p) ↔
      60 ≤ larpix_uart_get_register p ∧ larpix_uart_get_register p ≤ 62 := by
    unfold regAddrOk
    rw [if_neg h1, if_neg h2, if_neg h3, if_neg h4, if_neg h5, if_neg h6, if_neg h7, if_neg h8, if_neg h9, if_neg h10, if_neg h11, if_neg h12, if_neg h13]
  rw [read_reset_cycles_status]
  simp only [hiff]

/-- Status of the larpix_config_read_all fold: the initial accumulator plus
the number of positions in the remaining index list whose packet address is
rejected by that position. -/
theorem read_all_fold_status (ps : List larpix_uart_packet) (l : List Nat) :
    ∀ (s : Nat) (c : larpix_configuration),
      (l.foldl (fun acc k =>
        let r := readReg k (ps.getD k blankPacket) acc.2
        (acc.1 + r.1, r.2)) (s, c)).1 =
      s + l.countP
        (fun k => decide (¬ regAddrOk k (larpix_uart_get_register (ps.getD k blankPacket)))) := by
  induction l with
  | nil =>
      intro s c
      simp
  | cons k rest ih =>
      intro s c
      simp only [List.foldl_cons, List.countP_cons]
      rw [ih, readReg_status]
      by_cases hk : regAddrOk k (larpix_uart_get_register (ps.getD k blankPacket)) <;>
        simp [hk] <;> omega

/-- C5 amended: larpix_config_read_all returns a nonzero status exactly
when some position holds a packet whose declared register address lies
outside the set of addresses that the reader for that position accepts, and
the status counts every such position (so a mismatch never stops the
decoding of the remaining packets). -/
theorem larpix_c5_amended (c : larpix_configuration) (ps : List larpix_uart_packet) :
    ((larpix_config_read_all c ps).1 ≠ 0 ↔
      ∃ k, k < LARPIX_NUM_CONFIG_REGISTERS ∧
        ¬ regAddrOk k (larpix_uart_get_register (ps.getD k blankPacket)))
    ∧ (larpix_config_read_all c ps).1 =
        (List.range LARPIX_NUM_CONFIG_REGISTERS).countP
          (fun k => decide (¬ regAddrOk k (larpix_uart_get_register (ps.getD k blankPacket)))) := by
  have hfold : (larpix_config_read_all c ps).1 =
      (List.range LARPIX_NUM_CONFIG_REGISTERS).countP
        (fun k => decide (¬ regAddrOk k (larpix_uart_get_register (ps.getD k blankPacket)))) := by
    unfold larpix_config_read_all
    rw [read_all_fold_status ps (List.range LARPIX_NUM_CONFIG_REGISTERS) 0 c]
    omega
  refine ⟨?_, hfold⟩
  rw [hfold]
  constructor
  · intro h
    rcases List.countP_pos_iff.mp (Nat.pos_of_ne_zero h) with ⟨k, hkmem, hpk⟩
    refine ⟨k, List.mem_range.mp hkmem, ?_⟩
    simpa using hpk
  · rintro ⟨k, hk1, hk2⟩
    have hpos : 0 < (List.range LARPIX_NUM_CONFIG_REGISTERS).countP
        (fun k => decide (¬ regAddrOk k (larpix_uart_get_register (ps.getD k blankPacket)))) :=
      List.countP_pos_iff.mpr ⟨k, List.mem_range.mpr hk1, by simpa using hk2⟩
    omega
